import Mathlib

/-!
Shallow embedding of the Upload Queue Manager (`UploadQueue` class) of the
whatsbot repository, together with the message-handler glue from `index.js`
that stages temp files and submits them.

Modelling conventions:
* JavaScript is single-threaded; an `async` function runs atomically between
  `await` points.  Each such synchronous segment becomes one Lean function,
  and the environment's choices at the `await` points (result of the Google
  Drive upload, success or failure of each `message.reply`, success of
  `fs.remove`, the value of `Math.random()`, the readings of `Date.now()`)
  become explicit parameters.
* JS numbers holding the stats counters are modelled as `Int` (they can be
  decremented below zero), progress percentages and `Math.random()` as `Rat`.
* `Map` objects (`activeUploads`, `completedUploads`) are modelled as lists;
  `Map.set` overwrites the entry with the same key or appends, `Map.delete`
  removes every entry with the key (at most one ever exists, since item ids
  come from a fresh counter standing in for the `Date.now()`+random id).
* File hashing (`generateFileHash`) performs stream I/O; its outcome is an
  input to `isDuplicate`: `some h` for a computed digest, `none` for a
  stream error.
* The set of staged temp files on disk is carried in the state (`disk`) so
  that deletions performed by the core versus by the caller are visible.
* `setImmediate(() => this.processQueue())` registers a deferred scheduler
  invocation; the state counts such registrations in `pendingSchedules`
  and a separate step consumes one.
-/

/-- Status of an `uploadItem`, the string field `status` in the source. -/
inductive Status where
  | queued
  | processing
  | completed
  | failed
  deriving DecidableEq, Repr

/-- The queue's working record for one upload request (the object literal
built in `addToQueue`).  The id string `userId_Date.now()_random` is modelled
by a fresh natural number drawn from a counter. -/
structure UploadItem where
  id : Nat
  userId : String
  messageId : String
  filePath : String
  mimeType : String
  filename : String
  fileHash : Option String
  userKey : Option String
  status : Status
  progress : Rat
  addedAt : Nat
  startedAt : Option Nat
  completedAt : Option Nat
  error : Option String
  shareLink : Option String
  deriving DecidableEq, Repr

/-- Value stored in `completedUploads` for duplicate detection. -/
structure DupRecord where
  shareLink : String
  uploadTime : Nat
  filename : String
  deriving DecidableEq, Repr

/-- The `stats` object of the queue. -/
structure Stats where
  total : Int
  completed : Int
  failed : Int
  inProgress : Int
  deriving DecidableEq, Repr

/-- Whole-queue state: the fields of the `UploadQueue` instance, plus the
modelled clock, id counter, staged-file set and pending `setImmediate`
scheduler callbacks. -/
structure QueueState where
  maxConcurrent : Nat
  queue : List UploadItem
  activeUploads : List UploadItem
  completedUploads : List (String × DupRecord)
  stats : Stats
  nextId : Nat
  now : Nat
  disk : List String
  pendingSchedules : Nat
  deriving DecidableEq, Repr

/-- The constructor `new UploadQueue(maxConcurrent)`. -/
def initState (maxConcurrent : Nat) : QueueState :=
  { maxConcurrent := maxConcurrent
    queue := []
    activeUploads := []
    completedUploads := []
    stats := { total := 0, completed := 0, failed := 0, inProgress := 0 }
    nextId := 0
    now := 0
    disk := []
    pendingSchedules := 0 }

/-- `Map.get`-style lookup in the `completedUploads` association list. -/
def lookupRecord (k : String) (m : List (String × DupRecord)) : Option DupRecord :=
  (m.find? (fun p => p.1 = k)).map (fun p => p.2)

/-- `Map.set` semantics: overwrite the entry with key `k`, else append. -/
def setRecord (k : String) (v : DupRecord) (m : List (String × DupRecord)) :
    List (String × DupRecord) :=
  if m.any (fun p => p.1 = k) then
    m.map (fun p => if p.1 = k then (k, v) else p)
  else m ++ [(k, v)]

/-- Result of `isDuplicate`.  The source returns an object with fields
`isDuplicate`, `existingFile` (on a hit) and `fileHash`, `userKey`
(on a miss; both `null` when hashing failed). -/
structure DupCheck where
  isDup : Bool
  existingFile : Option DupRecord
  fileHash : Option String
  userKey : Option String
  deriving DecidableEq, Repr

/-- `UploadQueue.isDuplicate(filePath, userId)`.  `hashResult` is the outcome
of `generateFileHash`: `none` models the stream erroring, which the `catch`
turns into a non-duplicate verdict with `null` hash and key. -/
def isDuplicate (s : QueueState) (hashResult : Option String) (userId : String) :
    DupCheck :=
  match hashResult with
  | none => { isDup := false, existingFile := none, fileHash := none, userKey := none }
  | some h =>
    let userKey := userId ++ "_" ++ h
    match lookupRecord userKey s.completedUploads with
    | some r =>
        { isDup := true, existingFile := some r, fileHash := none, userKey := none }
    | none =>
        { isDup := false, existingFile := none, fileHash := some h,
          userKey := some userKey }

/-- The `uploadData` argument of `addToQueue`, with the hashing outcome
attached (the hash is computed from `filePath` by I/O in the source). -/
structure SubmitData where
  userId : String
  messageId : String
  filePath : String
  mimeType : String
  filename : String
  hashResult : Option String
  deriving DecidableEq, Repr

/-- Return value of `addToQueue`: `{status:'duplicate', existingFile}`,
`{status:'queued', uploadItem}`, or a rejected promise when one of its
`await originalMessage.reply(...)` calls throws. -/
inductive AddResult where
  | duplicate (existingFile : DupRecord)
  | queued (uploadItem : UploadItem)
  | thrown
  deriving DecidableEq, Repr

/-- Notifications delivered to collaborators (the `reply` calls and the
`progress` event emission), recording the data each message carries. -/
inductive Effect where
  | replyDuplicate (userId : String) (shareLink : String) (uploadTime : Nat)
  | replyQueued (userId : String) (position : Nat) (filename : String)
  | replyCompleted (userId : String) (filename : String) (shareLink : String)
  | replyFailed (userId : String) (filename : String) (error : String)
  deriving DecidableEq, Repr

/-- The construction and push of the new `uploadItem` in `addToQueue`:
build the record in `queued` state, append it to the backlog, and increment
`stats.total`. -/
def enqueueItem (s : QueueState) (d : SubmitData) (dc : DupCheck) :
    QueueState × UploadItem :=
  let item : UploadItem :=
    { id := s.nextId
      userId := d.userId
      messageId := d.messageId
      filePath := d.filePath
      mimeType := d.mimeType
      filename := d.filename
      fileHash := dc.fileHash
      userKey := dc.userKey
      status := Status.queued
      progress := 0
      addedAt := s.now
      startedAt := none
      completedAt := none
      error := none
      shareLink := none }
  ({ s with
      queue := s.queue ++ [item]
      nextId := s.nextId + 1
      stats := { s.stats with total := s.stats.total + 1 } }, item)

/-- The synchronous admission prefix of `processQueue`: if a concurrency
slot is free and the backlog is non-empty, shift the head, mark it
`processing`, record the start time, add it to the active set and increment
`stats.inProgress`.  (The remainder of `processQueue`, after
`await uploadFileToDrive`, is `finishUpload` below.) -/
def processQueueStep (s : QueueState) : QueueState :=
  if s.activeUploads.length ≥ s.maxConcurrent ∨ s.queue = [] then s
  else
    match s.queue with
    | [] => s
    | item :: rest =>
      let item' := { item with status := Status.processing, startedAt := some s.now }
      { s with
          queue := rest
          activeUploads := s.activeUploads ++ [item']
          stats := { s.stats with inProgress := s.stats.inProgress + 1 } }

/-- `UploadQueue.addToQueue(uploadData)`.  `replyOk` tells whether the
`await originalMessage.reply(...)` performed on this path delivers; when it
throws, the function's promise rejects with the mutations already made kept
(the caller in `index.js` catches the rejection).  On the non-duplicate path
the source calls `this.processQueue()` synchronously after the reply. -/
def addToQueue (s : QueueState) (d : SubmitData) (replyOk : Bool) :
    AddResult × QueueState × List Effect :=
  let dc := isDuplicate s d.hashResult d.userId
  match dc.existingFile, dc.isDup with
  | some existing, true =>
    if replyOk then
      (AddResult.duplicate existing, s,
        [Effect.replyDuplicate d.userId existing.shareLink existing.uploadTime])
    else (AddResult.thrown, s, [])
  | _, _ =>
    let (s1, item) := enqueueItem s d dc
    if replyOk then
      (AddResult.queued item, processQueueStep s1,
        [Effect.replyQueued d.userId s1.queue.length d.filename])
    else (AddResult.thrown, s1, [])

/-- The success continuation of `processQueue` after `uploadFileToDrive`
resolves: mark the item `completed` with progress 100, store the share link,
record the duplicate entry when `userKey` is non-null, drop the item from the
active set and move the counters.  All of this precedes the completion
notification.  Returns the updated state and the item as committed. -/
def successCommit (s : QueueState) (item : UploadItem) (shareLink : String)
    (now1 : Nat) : QueueState × UploadItem :=
  let item1 := { item with
      status := Status.completed
      progress := 100
      completedAt := some now1
      shareLink := some shareLink }
  let completed' :=
    match item.userKey with
    | some k =>
        setRecord k
          { shareLink := shareLink, uploadTime := now1, filename := item.filename }
          s.completedUploads
    | none => s.completedUploads
  ({ s with
      completedUploads := completed'
      activeUploads := s.activeUploads.filter (fun i => i.id ≠ item.id)
      stats := { s.stats with
          inProgress := s.stats.inProgress - 1
          completed := s.stats.completed + 1 }
      now := now1 }, item1)

/-- The `catch` block of `processQueue`: mark the item `failed`, record the
error message and a fresh `Date.now()` as `completedAt`, delete from the
active set (a no-op when already deleted) and move the counters. -/
def failCommit (s : QueueState) (item : UploadItem) (errMsg : String)
    (now2 : Nat) : QueueState × UploadItem :=
  let item2 := { item with
      status := Status.failed
      error := some errMsg
      completedAt := some now2 }
  ({ s with
      activeUploads := s.activeUploads.filter (fun i => i.id ≠ item.id)
      stats := { s.stats with
          inProgress := s.stats.inProgress - 1
          failed := s.stats.failed + 1 }
      now := now2 }, item2)

/-- `Map.get`-style lookup of an active item by id. -/
def findActive (s : QueueState) (itemId : Nat) : Option UploadItem :=
  s.activeUploads.find? (fun i => i.id = itemId)

/-- The rest of `processQueue` once `await uploadFileToDrive` settles for the
item `itemId` currently in the active set.

* `outcome` — `.ok link` when the upload resolved, `.error msg` when it threw;
* `reply1Ok` — whether the completion reply (inside the `try`) delivers;
* `reply2Ok` — whether the failure reply (inside the `catch`) delivers;
* `removeOk` — whether the `fs.remove` of the temp file succeeds (its own
  error is swallowed by the inner `try/catch`);
* `replyErr` — the `.message` of the error thrown by a failed completion
  reply, which the `catch` then records on the item;
* `now1`, `now2` — the readings of `Date.now()` in the success commit and in
  the `catch` block.

Control flow faithfully follows the source: a completion reply that throws
lands in the same `catch` as an upload failure, re-running its mutations on
the already-committed item; the temp-file removal is reached only after a
delivered completion reply; `setImmediate(() => this.processQueue())` is
reached only if the path did not end in an uncaught rejection, i.e. only
when the last attempted reply delivered. -/
def finishUpload (s : QueueState) (itemId : Nat) (outcome : Except String String)
    (reply1Ok reply2Ok removeOk : Bool) (replyErr : String) (now1 now2 : Nat) :
    QueueState × List Effect × Option UploadItem :=
  match findActive s itemId with
  | none => (s, [], none)
  | some item =>
    match outcome with
    | Except.ok shareLink =>
      let (s1, item1) := successCommit s item shareLink now1
      if reply1Ok then
        let s2 := { s1 with
            disk := if removeOk then s1.disk.filter (fun p => p ≠ item.filePath)
                    else s1.disk
            pendingSchedules := s1.pendingSchedules + 1 }
        (s2, [Effect.replyCompleted item.userId item.filename shareLink], some item1)
      else
        let (s2, item2) := failCommit s1 item1 replyErr now2
        if reply2Ok then
          ({ s2 with pendingSchedules := s2.pendingSchedules + 1 },
            [Effect.replyFailed item.userId item.filename replyErr], some item2)
        else (s2, [], some item2)
    | Except.error msg =>
      let (s1, item2) := failCommit s item msg now1
      if reply2Ok then
        ({ s1 with pendingSchedules := s1.pendingSchedules + 1 },
          [Effect.replyFailed item.userId item.filename msg], some item2)
      else (s1, [], some item2)

/-- Running one deferred `setImmediate(() => this.processQueue())` callback. -/
def runScheduled (s : QueueState) : QueueState :=
  if s.pendingSchedules = 0 then s
  else processQueueStep { s with pendingSchedules := s.pendingSchedules - 1 }

/-- One firing of the `setInterval` callback installed by `simulateProgress`
for `item`, with `r` the value drawn from `Math.random()`.  When the item has
left `processing` the interval clears itself and neither mutates nor emits;
otherwise the progress is bumped by `r * 15 + 5`, clamped at the 90
high-water mark, and a progress event is emitted. -/
def simulateProgressTick (item : UploadItem) (r : Rat) :
    UploadItem × Option (Nat × Int × String) :=
  if item.status ≠ Status.processing then (item, none)
  else
    let item' :=
      if item.progress < 90 then
        let p := item.progress + (r * 15 + 5)
        { item with progress := if p > 90 then 90 else p }
      else item
    (item', some (item'.id, round item'.progress, item'.filename))

/-- Lifting one progress tick for the active item `itemId` to the queue
state (the interval's closure mutates the shared item object). -/
def applyTick (s : QueueState) (itemId : Nat) (r : Rat) : QueueState :=
  { s with
      activeUploads := s.activeUploads.map
        (fun i => if i.id = itemId then (simulateProgressTick i r).1 else i) }

/-- Staging of the temp file by the message handler in `index.js`
(`fsExtra.writeFile(tempFilePath, ...)`) before submission. -/
def stageFile (s : QueueState) (p : String) : QueueState :=
  if p ∈ s.disk then s else { s with disk := s.disk ++ [p] }

/-- The media path of the `client.on('message')` handler in `index.js`:
stage the temp file, call `addToQueue`, and on a `duplicate` result attempt
to delete the temp file (caller-side `fsExtra.remove`); that remove sits in
a `try/catch` that swallows its failure, so `dupRemoveOk` tells whether the
deletion actually happened — on failure the staged file stays on disk. -/
def handleMedia (s : QueueState) (d : SubmitData) (replyOk dupRemoveOk : Bool) :
    AddResult × QueueState × List Effect :=
  let (res, s1, effs) := addToQueue (stageFile s d.filePath) d replyOk
  match res with
  | AddResult.duplicate _ =>
      (res,
        { s1 with
            disk := if dupRemoveOk then s1.disk.filter (fun p => p ≠ d.filePath)
                    else s1.disk }, effs)
  | _ => (res, s1, effs)

/-- States reachable from a freshly constructed queue by any interleaving of
submissions, upload settlements, deferred scheduler callbacks and progress
ticks, with the environment choosing every outcome. -/
inductive Reachable : QueueState → Prop where
  | init (maxConcurrent : Nat) : Reachable (initState maxConcurrent)
  | submit {s : QueueState} (d : SubmitData) (replyOk dupRemoveOk : Bool) :
      Reachable s → Reachable (handleMedia s d replyOk dupRemoveOk).2.1
  | finish {s : QueueState} (itemId : Nat) (outcome : Except String String)
      (reply1Ok reply2Ok removeOk : Bool) (replyErr : String) (now1 now2 : Nat) :
      Reachable s → s.now ≤ now1 → now1 ≤ now2 →
      Reachable (finishUpload s itemId outcome reply1Ok reply2Ok removeOk
        replyErr now1 now2).1
  | sched {s : QueueState} : Reachable s → Reachable (runScheduled s)
  | tick {s : QueueState} (itemId : Nat) (r : Rat) :
      Reachable s → 0 ≤ r → r < 1 → Reachable (applyTick s itemId r)

/-! ### Concrete scenario data used to evaluate the model -/

/-- A first media submission by user `u` whose staged file hashes to `h`. -/
def subFirst : SubmitData :=
  { userId := "u", messageId := "m1", filePath := "f1", mimeType := "t",
    filename := "a.bin", hashResult := some "h" }

/-- A second submission by the same user with byte-identical content
(same digest `h`), staged at a different temp path. -/
def subSecond : SubmitData :=
  { userId := "u", messageId := "m2", filePath := "f2", mimeType := "t",
    filename := "a.bin", hashResult := some "h" }

/-- The upload item returned for `subFirst` at submission time. -/
def itemFirstQueued : UploadItem :=
  { id := 0, userId := "u", messageId := "m1", filePath := "f1", mimeType := "t",
    filename := "a.bin", fileHash := some "h", userKey := some "u_h",
    status := Status.queued, progress := 0, addedAt := 0, startedAt := none,
    completedAt := none, error := none, shareLink := none }

/-- The upload item returned for `subSecond` at submission time. -/
def itemSecondQueued : UploadItem :=
  { id := 1, userId := "u", messageId := "m2", filePath := "f2", mimeType := "t",
    filename := "a.bin", fileHash := some "h", userKey := some "u_h",
    status := Status.queued, progress := 0, addedAt := 0, startedAt := none,
    completedAt := none, error := none, shareLink := none }

/-- State after submitting `subFirst` to a fresh queue with concurrency 1:
the item is dispatched and processing. -/
def oneActiveState : QueueState :=
  (handleMedia (initState 1) subFirst true true).2.1

/-- `subFirst`'s item as it sits in `oneActiveState`'s active set. -/
def procItemFirst : UploadItem :=
  { id := 0, userId := "u", messageId := "m1", filePath := "f1", mimeType := "t",
    filename := "a.bin", fileHash := some "h", userKey := some "u_h",
    status := Status.processing, progress := 0, addedAt := 0,
    startedAt := some 0, completedAt := none, error := none, shareLink := none }

/-- State after additionally submitting `subSecond`: the slot is taken, so
the second item waits in the backlog. -/
def twoSubState : QueueState :=
  (handleMedia oneActiveState subSecond true true).2.1

/-- A previously completed upload of user `u`'s content with digest `h`. -/
def recExample : DupRecord :=
  { shareLink := "L0", uploadTime := 1, filename := "a.bin" }

/-- A queue whose duplicate index already holds `recExample` for `u_h`. -/
def stateWithRecord : QueueState :=
  { initState 3 with completedUploads := [("u_h", recExample)] }

/-- An item that has left `processing` (its interval must fall silent). -/
def tickItemDone : UploadItem :=
  { itemFirstQueued with status := Status.completed, progress := 100 }

/-- An in-flight item mid-progress, for exercising the estimator. -/
def tickItemProc : UploadItem :=
  { procItemFirst with progress := 40 }

/-! ### Invariants preserved by every operation -/

/-- The bookkeeping invariant of the queue: the counter balance, the
status discipline of the backlog and the active set, the progress bounds,
and the concurrency bound. -/
structure QueueInv (s : QueueState) : Prop where
  sums : s.stats.total =
    s.stats.completed + s.stats.failed + s.stats.inProgress + (s.queue.length : Int)
  qStatus : ∀ i ∈ s.queue, i.status = Status.queued
  aStatus : ∀ i ∈ s.activeUploads, i.status = Status.processing
  qProg : ∀ i ∈ s.queue, i.progress = 0
  aProg : ∀ i ∈ s.activeUploads, 0 ≤ i.progress ∧ i.progress ≤ 90
  bound : s.activeUploads.length ≤ s.maxConcurrent

theorem queueInv_init (m : Nat) : QueueInv (initState m) := by
  constructor <;> simp [initState]

theorem queueInv_processQueueStep {s : QueueState} (h : QueueInv s) :
    QueueInv (processQueueStep s) := by
  unfold processQueueStep
  split
  · exact h
  · rename_i hguard
    push_neg at hguard
    obtain ⟨hlt, hne⟩ := hguard
    match hq : s.queue with
    | [] => exact absurd hq hne
    | item :: rest =>
      have hitem : item ∈ s.queue := by rw [hq]; exact List.mem_cons_self _ _
      constructor
      · have := h.sums
        rw [hq] at this
        simp only [List.length_cons] at this
        push_cast at this ⊢
        omega
      · intro i hi
        exact h.qStatus i (by rw [hq]; exact List.mem_cons_of_mem _ hi)
      · intro i hi
        rcases List.mem_append.mp hi with hi | hi
        · exact h.aStatus i hi
        · simp only [List.mem_singleton] at hi
          subst hi; rfl
      · intro i hi
        exact h.qProg i (by rw [hq]; exact List.mem_cons_of_mem _ hi)
      · intro i hi
        rcases List.mem_append.mp hi with hi | hi
        · exact h.aProg i hi
        · simp only [List.mem_singleton] at hi
          subst hi
          simp only [h.qProg item hitem]
          norm_num
      · simp only [List.length_append, List.length_singleton]
        omega

theorem queueInv_enqueueItem {s : QueueState} (d : SubmitData) (dc : DupCheck)
    (h : QueueInv s) : QueueInv (enqueueItem s d dc).1 := by
  unfold enqueueItem
  constructor
  · have := h.sums
    simp only [List.length_append, List.length_singleton]
    push_cast
    push_cast at this
    omega
  · intro i hi
    rcases List.mem_append.mp hi with hi | hi
    · exact h.qStatus i hi
    · simp only [List.mem_singleton] at hi; subst hi; rfl
  · exact h.aStatus
  · intro i hi
    rcases List.mem_append.mp hi with hi | hi
    · exact h.qProg i hi
    · simp only [List.mem_singleton] at hi; subst hi; rfl
  · exact h.aProg
  · exact h.bound

theorem simulateProgressTick_status (item : UploadItem) (r : Rat) :
    (simulateProgressTick item r).1.status = item.status := by
  unfold simulateProgressTick
  split
  · rfl
  · dsimp only
    split <;> rfl

theorem simulateProgressTick_of_not_processing (item : UploadItem) (r : Rat)
    (h : item.status ≠ Status.processing) :
    simulateProgressTick item r = (item, none) := by
  unfold simulateProgressTick
  simp [h]

theorem simulateProgressTick_mono (item : UploadItem) (r : Rat) (hr : 0 ≤ r) :
    item.progress ≤ (simulateProgressTick item r).1.progress := by
  unfold simulateProgressTick
  split
  · exact le_refl _
  · dsimp only
    split
    · rename_i hlt
      dsimp only
      split
      · exact le_of_lt hlt
      · have : 0 ≤ r * 15 + 5 := by positivity
        linarith
    · exact le_refl _

theorem simulateProgressTick_le90 (item : UploadItem) (r : Rat)
    (h : item.progress ≤ 90) :
    (simulateProgressTick item r).1.progress ≤ 90 := by
  unfold simulateProgressTick
  split
  · exact h
  · dsimp only
    split
    · dsimp only
      split
      · exact le_refl _
      · rename_i hnot
        push_neg at hnot
        exact hnot
    · exact h

theorem simulateProgressTick_nonneg (item : UploadItem) (r : Rat) (hr : 0 ≤ r)
    (h : 0 ≤ item.progress) :
    0 ≤ (simulateProgressTick item r).1.progress := by
  have := simulateProgressTick_mono item r hr
  linarith

theorem queueInv_successCommit {s : QueueState} (item : UploadItem)
    (shareLink : String) (now1 : Nat) (h : QueueInv s) :
    QueueInv (successCommit s item shareLink now1).1 := by
  unfold successCommit
  constructor
  · have := h.sums
    dsimp only
    push_cast at this ⊢
    omega
  · exact h.qStatus
  · intro i hi
    exact h.aStatus i (List.mem_of_mem_filter hi)
  · exact h.qProg
  · intro i hi
    exact h.aProg i (List.mem_of_mem_filter hi)
  · exact le_trans (List.length_filter_le _ _) h.bound

theorem queueInv_failCommit {s : QueueState} (item : UploadItem)
    (errMsg : String) (now2 : Nat) (h : QueueInv s) :
    QueueInv (failCommit s item errMsg now2).1 := by
  unfold failCommit
  constructor
  · have := h.sums
    dsimp only
    push_cast at this ⊢
    omega
  · exact h.qStatus
  · intro i hi
    exact h.aStatus i (List.mem_of_mem_filter hi)
  · exact h.qProg
  · intro i hi
    exact h.aProg i (List.mem_of_mem_filter hi)
  · exact le_trans (List.length_filter_le _ _) h.bound

/-- Updating only `disk`, `pendingSchedules` fields keeps the invariant. -/
theorem queueInv_frame {s : QueueState} (disk : List String)
    (pendingSchedules : Nat) (h : QueueInv s) :
    QueueInv { s with disk := disk, pendingSchedules := pendingSchedules } := by
  constructor
  · exact h.sums
  · exact h.qStatus
  · exact h.aStatus
  · exact h.qProg
  · exact h.aProg
  · exact h.bound

theorem queueInv_finishUpload {s : QueueState} (itemId : Nat)
    (outcome : Except String String) (reply1Ok reply2Ok removeOk : Bool)
    (replyErr : String) (now1 now2 : Nat) (h : QueueInv s) :
    QueueInv (finishUpload s itemId outcome reply1Ok reply2Ok removeOk
      replyErr now1 now2).1 := by
  unfold finishUpload
  split
  · exact h
  · rename_i item _
    match outcome with
    | Except.ok shareLink =>
      dsimp only
      split
      · exact queueInv_frame _ _ (queueInv_successCommit item shareLink now1 h)
      · split
        · exact queueInv_frame _ _
            (queueInv_failCommit _ replyErr now2
              (queueInv_successCommit item shareLink now1 h))
        · exact queueInv_failCommit _ replyErr now2
            (queueInv_successCommit item shareLink now1 h)
    | Except.error msg =>
      dsimp only
      split
      · exact queueInv_frame _ _ (queueInv_failCommit item msg now1 h)
      · exact queueInv_failCommit item msg now1 h

theorem queueInv_runScheduled {s : QueueState} (h : QueueInv s) :
    QueueInv (runScheduled s) := by
  unfold runScheduled
  split
  · exact h
  · exact queueInv_processQueueStep (queueInv_frame s.disk _ h)

theorem queueInv_applyTick {s : QueueState} (itemId : Nat) (r : Rat)
    (hr : 0 ≤ r) (h : QueueInv s) : QueueInv (applyTick s itemId r) := by
  unfold applyTick
  constructor
  · exact h.sums
  · exact h.qStatus
  · intro i hi
    rcases List.mem_map.mp hi with ⟨j, hj, hji⟩
    subst hji
    split
    · rw [simulateProgressTick_status]
      exact h.aStatus j hj
    · exact h.aStatus j hj
  · exact h.qProg
  · intro i hi
    rcases List.mem_map.mp hi with ⟨j, hj, hji⟩
    subst hji
    split
    · exact ⟨simulateProgressTick_nonneg j r hr (h.aProg j hj).1,
        simulateProgressTick_le90 j r (h.aProg j hj).2⟩
    · exact h.aProg j hj
  · simpa using h.bound

theorem queueInv_stageFile {s : QueueState} (p : String) (h : QueueInv s) :
    QueueInv (stageFile s p) := by
  unfold stageFile
  split
  · exact h
  · exact queueInv_frame _ _ h

theorem queueInv_addToQueue {s : QueueState} (d : SubmitData) (replyOk : Bool)
    (h : QueueInv s) : QueueInv (addToQueue s d replyOk).2.1 := by
  unfold addToQueue
  dsimp only
  split
  · split
    · exact h
    · exact h
  · split
    · exact queueInv_processQueueStep (queueInv_enqueueItem d _ h)
    · exact queueInv_enqueueItem d _ h

theorem queueInv_handleMedia {s : QueueState} (d : SubmitData)
    (replyOk dupRemoveOk : Bool) (h : QueueInv s) :
    QueueInv (handleMedia s d replyOk dupRemoveOk).2.1 := by
  unfold handleMedia
  dsimp only
  split
  · exact queueInv_frame _ _ (queueInv_addToQueue d replyOk (queueInv_stageFile _ h))
  · exact queueInv_addToQueue d replyOk (queueInv_stageFile _ h)

/-- Every reachable state satisfies the bookkeeping invariant. -/
theorem reachable_queueInv {s : QueueState} (h : Reachable s) : QueueInv s := by
  induction h with
  | init m => exact queueInv_init m
  | submit d replyOk dupRemoveOk _ ih =>
      exact queueInv_handleMedia d replyOk dupRemoveOk ih
  | finish itemId outcome r1 r2 rm replyErr now1 now2 _ _ _ ih =>
      exact queueInv_finishUpload itemId outcome r1 r2 rm replyErr now1 now2 ih
  | sched _ ih => exact queueInv_runScheduled ih
  | tick itemId r _ hr0 _ ih => exact queueInv_applyTick itemId r hr0 ih

/-! ### Helper facts about the concrete scenarios -/

theorem reachable_oneActiveState : Reachable oneActiveState :=
  Reachable.submit subFirst true true (Reachable.init 1)

theorem reachable_twoSubState : Reachable twoSubState :=
  Reachable.submit subSecond true true reachable_oneActiveState

/-- Whenever `addToQueue` returns a `duplicate` outcome, the whole queue
state is left untouched: nothing is enqueued, no counter moves, no worker
is dispatched, no file is touched. -/
theorem addToQueue_duplicate_state {s : QueueState} {d : SubmitData}
    {replyOk : Bool} {r : DupRecord}
    (h : (addToQueue s d replyOk).1 = AddResult.duplicate r) :
    (addToQueue s d replyOk).2.1 = s := by
  cases hh : d.hashResult with
  | none =>
    simp only [addToQueue, isDuplicate, enqueueItem, hh] at h ⊢
    split at h <;> simp_all
  | some hsh =>
    cases hl : lookupRecord (d.userId ++ "_" ++ hsh) s.completedUploads with
    | some rec =>
      simp only [addToQueue, isDuplicate, enqueueItem, hh, hl] at h ⊢
      split <;> rfl
    | none =>
      simp only [addToQueue, isDuplicate, enqueueItem, hh, hl] at h ⊢
      split at h <;> simp_all

/-! ### The claims -/

/-- C5: in every reachable state of the queue,
`total == completed + failed + inProgress + backlogLength`, where
`backlogLength` is the number of tracked items currently in `queued`
status. -/
theorem counter_consistency (s : QueueState) (h : Reachable s) :
    s.stats.total =
      s.stats.completed + s.stats.failed + s.stats.inProgress +
        (((s.queue ++ s.activeUploads).countP
            (fun i => i.status = Status.queued) : Nat) : Int) := by
  have inv := reachable_queueInv h
  have hq : s.queue.countP (fun i => i.status = Status.queued) = s.queue.length :=
    List.countP_eq_length.mpr (fun i hi => by simp [inv.qStatus i hi])
  have ha : s.activeUploads.countP (fun i => i.status = Status.queued) = 0 := by
    rw [List.countP_eq_zero]
    intro i hi
    simp [inv.aStatus i hi]
  rw [List.countP_append, hq, ha]
  simpa using inv.sums

/-- Witness for C5 at a concrete reachable state with one processing item
and one backlogged item. -/
theorem counter_consistency_witness :
    twoSubState.stats.total =
      twoSubState.stats.completed + twoSubState.stats.failed +
        twoSubState.stats.inProgress +
        (((twoSubState.queue ++ twoSubState.activeUploads).countP
            (fun i => i.status = Status.queued) : Nat) : Int) :=
  counter_consistency twoSubState reachable_twoSubState

/-- C6: in every reachable state, the active set never exceeds the
concurrency limit fixed at construction. -/
theorem bounded_concurrency (s : QueueState) (h : Reachable s) :
    s.activeUploads.length ≤ s.maxConcurrent :=
  (reachable_queueInv h).bound

/-- Witness for C6 at a concrete reachable state whose single slot is
occupied. -/
theorem bounded_concurrency_witness :
    twoSubState.activeUploads.length ≤ twoSubState.maxConcurrent :=
  bounded_concurrency twoSubState reachable_twoSubState

/-- C9: a progress tick never fires once the item has left `processing`
(no mutation, no emission); while processing, the progress value is
monotonically non-decreasing under the estimator, which never raises it
above the 90 high-water mark; and in every reachable state every tracked
item's progress lies within 0–100. -/
theorem progress_contract :
    (∀ (item : UploadItem) (r : Rat), item.status ≠ Status.processing →
        simulateProgressTick item r = (item, none)) ∧
    (∀ (item : UploadItem) (r : Rat), 0 ≤ r →
        item.progress ≤ (simulateProgressTick item r).1.progress) ∧
    (∀ (item : UploadItem) (r : Rat), item.progress ≤ 90 →
        (simulateProgressTick item r).1.progress ≤ 90) ∧
    (∀ (s : QueueState), Reachable s → ∀ item : UploadItem,
        item ∈ s.queue ∨ item ∈ s.activeUploads →
        0 ≤ item.progress ∧ item.progress ≤ 100) := by
  refine ⟨simulateProgressTick_of_not_processing, simulateProgressTick_mono,
    simulateProgressTick_le90, ?_⟩
  intro s hs item hmem
  have inv := reachable_queueInv hs
  rcases hmem with hq | ha
  · rw [inv.qProg item hq]
    norm_num
  · obtain ⟨h0, h90⟩ := inv.aProg item ha
    exact ⟨h0, le_trans h90 (by norm_num)⟩

/-- Witness for C9: a completed item's tick is silent; a mid-flight item at
40 percent moves monotonically, stays under 90, and a reachable processing
item sits within 0–100. -/
theorem progress_contract_witness :
    simulateProgressTick tickItemDone (1/2) = (tickItemDone, none) ∧
    tickItemProc.progress ≤ (simulateProgressTick tickItemProc (1/2)).1.progress ∧
    (simulateProgressTick tickItemProc (1/2)).1.progress ≤ 90 ∧
    (0 ≤ procItemFirst.progress ∧ procItemFirst.progress ≤ 100) :=
  ⟨progress_contract.1 tickItemDone (1/2) (by decide),
   progress_contract.2.1 tickItemProc (1/2) (by norm_num),
   progress_contract.2.2.1 tickItemProc (1/2) (by decide),
   progress_contract.2.2.2 oneActiveState reachable_oneActiveState procItemFirst
     (Or.inr (by decide))⟩

/-- C8: when hashing fails (`hashResult = none`), the duplicate verdict is
a miss with null hash and key regardless of the duplicate index, and the
submission is enqueued and handed to the normal queued/processing path
(never rejected): `addToQueue` returns the `queued` outcome, appends the
item, bumps `total` and triggers the scheduler. -/
theorem hashing_failure_proceeds_nonduplicate (s : QueueState) (d : SubmitData)
    (h : d.hashResult = none) :
    isDuplicate s d.hashResult d.userId =
      { isDup := false, existingFile := none, fileHash := none, userKey := none } ∧
    (addToQueue s d true).1 =
      AddResult.queued (enqueueItem s d (isDuplicate s d.hashResult d.userId)).2 ∧
    (addToQueue s d true).2.1 =
      processQueueStep (enqueueItem s d (isDuplicate s d.hashResult d.userId)).1 ∧
    (enqueueItem s d (isDuplicate s d.hashResult d.userId)).2.status
      = Status.queued ∧
    (enqueueItem s d (isDuplicate s d.hashResult d.userId)).1.stats.total
      = s.stats.total + 1 := by
  refine ⟨by simp [isDuplicate, h], ?_, ?_, by simp [enqueueItem], by simp [enqueueItem]⟩
  · simp [addToQueue, isDuplicate, enqueueItem, h]
  · simp [addToQueue, isDuplicate, enqueueItem, h]

/-- Witness for C8: an unreadable staged file is queued even though the
duplicate index holds a record for this user's content. -/
theorem hashing_failure_proceeds_nonduplicate_witness :
    isDuplicate stateWithRecord none "u" =
      { isDup := false, existingFile := none, fileHash := none, userKey := none } ∧
    (addToQueue stateWithRecord { subFirst with hashResult := none } true).1 =
      AddResult.queued (enqueueItem stateWithRecord
        { subFirst with hashResult := none }
        (isDuplicate stateWithRecord none "u")).2 ∧
    (addToQueue stateWithRecord { subFirst with hashResult := none } true).2.1 =
      processQueueStep (enqueueItem stateWithRecord
        { subFirst with hashResult := none }
        (isDuplicate stateWithRecord none "u")).1 ∧
    (enqueueItem stateWithRecord { subFirst with hashResult := none }
        (isDuplicate stateWithRecord none "u")).2.status = Status.queued ∧
    (enqueueItem stateWithRecord { subFirst with hashResult := none }
        (isDuplicate stateWithRecord none "u")).1.stats.total
      = stateWithRecord.stats.total + 1 :=
  hashing_failure_proceeds_nonduplicate stateWithRecord
    { subFirst with hashResult := none } rfl

/-- C10: a non-duplicate submission appends the item to the FIFO backlog in
`queued` status, increments `total`, returns the `Queued` outcome, and the
position notified to the caller is the backlog length right after the
append (1-based). -/
theorem nonduplicate_submission_enqueues (s : QueueState) (d : SubmitData)
    (h : (isDuplicate s d.hashResult d.userId).isDup = false) :
    (addToQueue s d true).1 =
      AddResult.queued (enqueueItem s d (isDuplicate s d.hashResult d.userId)).2 ∧
    (enqueueItem s d (isDuplicate s d.hashResult d.userId)).1.queue =
      s.queue ++ [(enqueueItem s d (isDuplicate s d.hashResult d.userId)).2] ∧
    (enqueueItem s d (isDuplicate s d.hashResult d.userId)).2.status
      = Status.queued ∧
    (enqueueItem s d (isDuplicate s d.hashResult d.userId)).1.stats.total
      = s.stats.total + 1 ∧
    (addToQueue s d true).2.2 =
      [Effect.replyQueued d.userId (s.queue.length + 1) d.filename] ∧
    s.queue.length + 1 =
      (s.queue ++ [(enqueueItem s d (isDuplicate s d.hashResult d.userId)).2]).length := by
  cases hh : d.hashResult with
  | none =>
    refine ⟨?_, by simp [enqueueItem], by simp [enqueueItem],
      by simp [enqueueItem], ?_, by simp⟩
    · simp [addToQueue, isDuplicate, enqueueItem, hh]
    · simp [addToQueue, isDuplicate, enqueueItem, hh]
  | some hsh =>
    cases hl : lookupRecord (d.userId ++ "_" ++ hsh) s.completedUploads with
    | some rec =>
      exfalso
      rw [hh] at h
      simp [isDuplicate, hl] at h
    | none =>
      refine ⟨?_, by simp [enqueueItem], by simp [enqueueItem],
        by simp [enqueueItem], ?_, by simp⟩
      · simp [addToQueue, isDuplicate, enqueueItem, hh, hl]
      · simp [addToQueue, isDuplicate, enqueueItem, hh, hl]

/-- Witness for C10 on a fresh queue: the submission is queued at
position 1. -/
theorem nonduplicate_submission_enqueues_witness :
    (addToQueue (initState 3) subFirst true).1 =
      AddResult.queued (enqueueItem (initState 3) subFirst
        (isDuplicate (initState 3) subFirst.hashResult subFirst.userId)).2 ∧
    (enqueueItem (initState 3) subFirst
        (isDuplicate (initState 3) subFirst.hashResult subFirst.userId)).1.queue =
      (initState 3).queue ++ [(enqueueItem (initState 3) subFirst
        (isDuplicate (initState 3) subFirst.hashResult subFirst.userId)).2] ∧
    (enqueueItem (initState 3) subFirst
        (isDuplicate (initState 3) subFirst.hashResult subFirst.userId)).2.status
      = Status.queued ∧
    (enqueueItem (initState 3) subFirst
        (isDuplicate (initState 3) subFirst.hashResult subFirst.userId)).1.stats.total
      = (initState 3).stats.total + 1 ∧
    (addToQueue (initState 3) subFirst true).2.2 =
      [Effect.replyQueued subFirst.userId ((initState 3).queue.length + 1)
        subFirst.filename] ∧
    (initState 3).queue.length + 1 =
      ((initState 3).queue ++ [(enqueueItem (initState 3) subFirst
        (isDuplicate (initState 3) subFirst.hashResult subFirst.userId)).2]).length :=
  nonduplicate_submission_enqueues (initState 3) subFirst (by decide)

/-- C1 counterexample: two byte-identical submissions from the same user,
the second made while the first has not yet completed, both return the
`Queued` outcome (no `Duplicate` outcome at all) and both are dispatched
to upload workers. -/
theorem both_identical_submissions_queued :
    (handleMedia (initState 3) subFirst true true).1
      = AddResult.queued itemFirstQueued ∧
    (handleMedia (handleMedia (initState 3) subFirst true true).2.1
        subSecond true true).1 = AddResult.queued itemSecondQueued ∧
    (handleMedia (handleMedia (initState 3) subFirst true true).2.1
        subSecond true true).2.1.activeUploads.length = 2 := by
  decide

/-- C1 as amended: a byte-identical resubmission from the same user yields
`Duplicate` (without enqueueing, uploading, or any other state change)
exactly when the duplicate index already holds a completed-upload record
for that user and digest; while no such record exists (in particular while
the first upload has not yet completed) the submission is `Queued` as
well. -/
theorem duplicate_only_after_completed_record :
    (∀ (s : QueueState) (d : SubmitData) (hsh : String) (r : DupRecord),
        d.hashResult = some hsh →
        lookupRecord (d.userId ++ "_" ++ hsh) s.completedUploads = some r →
        addToQueue s d true =
          (AddResult.duplicate r, s,
            [Effect.replyDuplicate d.userId r.shareLink r.uploadTime])) ∧
    (∀ (s : QueueState) (d : SubmitData) (hsh : String),
        d.hashResult = some hsh →
        lookupRecord (d.userId ++ "_" ++ hsh) s.completedUploads = none →
        (addToQueue s d true).1 =
          AddResult.queued
            (enqueueItem s d (isDuplicate s d.hashResult d.userId)).2) := by
  constructor
  · intro s d hsh r hd hl
    simp [addToQueue, isDuplicate, hd, hl]
  · intro s d hsh hd hl
    simp [addToQueue, isDuplicate, enqueueItem, hd, hl]

/-- Witness for the amended C1: with a completed record in the index the
resubmission short-circuits to `Duplicate` leaving the state untouched;
on a fresh queue the same submission is `Queued`. -/
theorem duplicate_only_after_completed_record_witness :
    addToQueue stateWithRecord subFirst true =
      (AddResult.duplicate recExample, stateWithRecord,
        [Effect.replyDuplicate subFirst.userId recExample.shareLink
          recExample.uploadTime]) ∧
    (addToQueue (initState 1) subFirst true).1 =
      AddResult.queued (enqueueItem (initState 1) subFirst
        (isDuplicate (initState 1) subFirst.hashResult subFirst.userId)).2 :=
  ⟨duplicate_only_after_completed_record.1 stateWithRecord subFirst "h"
      recExample rfl (by decide),
   duplicate_only_after_completed_record.2 (initState 1) subFirst "h"
      rfl (by decide)⟩

/-- C7 counterexample: after a successful upload with a delivered
completion notification, the worker itself removes the staged file from
disk (`fs.remove` inside `processQueue`), so the staged file's existence is
not unchanged by the core. -/
theorem worker_deletes_staged_file :
    oneActiveState.disk = ["f1"] ∧
    (finishUpload oneActiveState 0 (Except.ok "L") true true true "e" 5 6).1.disk
      = [] := by
  decide

/-- C7 as amended: the worker deletes the staged file itself, but only on
the success path after the completion notification is delivered; after a
failed upload, or a success whose completion notification fails, the worker
leaves the file on disk; on the duplicate short-circuit the core leaves the
file untouched and the ingestion collaborator in `index.js` attempts the
deletion, whose own failure is swallowed and leaves the file on disk. -/
theorem staged_file_deletion_paths :
    (∀ (s : QueueState) (itemId : Nat) (msg : String) (r1 r2 rm : Bool)
        (e : String) (n1 n2 : Nat),
        (finishUpload s itemId (Except.error msg) r1 r2 rm e n1 n2).1.disk
          = s.disk) ∧
    (∀ (s : QueueState) (itemId : Nat) (link : String) (r2 rm : Bool)
        (e : String) (n1 n2 : Nat),
        (finishUpload s itemId (Except.ok link) false r2 rm e n1 n2).1.disk
          = s.disk) ∧
    (∀ (s : QueueState) (itemId : Nat) (link : String) (e : String)
        (n1 n2 : Nat) (item : UploadItem),
        findActive s itemId = some item →
        (finishUpload s itemId (Except.ok link) true true true e n1 n2).1.disk
          = s.disk.filter (fun p => p ≠ item.filePath)) ∧
    (∀ (s : QueueState) (d : SubmitData) (r : DupRecord),
        (addToQueue s d true).1 = AddResult.duplicate r →
        (addToQueue s d true).2.1.disk = s.disk) ∧
    (∀ (s : QueueState) (d : SubmitData) (r : DupRecord) (rm2 : Bool),
        (handleMedia s d true rm2).1 = AddResult.duplicate r →
        (handleMedia s d true rm2).2.1.disk
          = if rm2 then
              (stageFile s d.filePath).disk.filter (fun p => p ≠ d.filePath)
            else (stageFile s d.filePath).disk) := by
  refine ⟨?_, ?_, ?_, ?_, ?_⟩
  · intro s itemId msg r1 r2 rm e n1 n2
    unfold finishUpload
    split
    · rfl
    · simp only [failCommit]
      split <;> rfl
  · intro s itemId link r2 rm e n1 n2
    unfold finishUpload
    split
    · rfl
    · simp only [successCommit, failCommit]
      split
      · rename_i hcontra
        exact absurd hcontra (by simp)
      · split <;> rfl
  · intro s itemId link e n1 n2 item hfind
    unfold finishUpload
    rw [hfind]
    simp [successCommit]
  · intro s d r h
    rw [addToQueue_duplicate_state h]
  · intro s d r rm2 h
    rcases hA : addToQueue (stageFile s d.filePath) d true with ⟨res, s1, effs⟩
    simp only [handleMedia, hA] at h ⊢
    cases res with
    | duplicate r0 =>
      have h2 := addToQueue_duplicate_state (r := r0) (by rw [hA])
      rw [hA] at h2
      dsimp only at h2 ⊢
      rw [h2]
    | queued item => simp at h
    | thrown => simp at h


/-- Witness for the amended C7: the concrete failure path, failed-reply
path, success path and duplicate path (with the caller-side remove both
succeeding and failing) of the staged-file policy. -/
theorem staged_file_deletion_paths_witness :
    (finishUpload oneActiveState 0 (Except.error "x") true true true "e" 5 6).1.disk
      = oneActiveState.disk ∧
    (finishUpload oneActiveState 0 (Except.ok "L") false true true "e" 5 6).1.disk
      = oneActiveState.disk ∧
    (finishUpload oneActiveState 0 (Except.ok "L") true true true "e" 5 6).1.disk
      = oneActiveState.disk.filter (fun p => p ≠ procItemFirst.filePath) ∧
    (addToQueue stateWithRecord subFirst true).2.1.disk = stateWithRecord.disk ∧
    (handleMedia stateWithRecord subFirst true true).2.1.disk
      = (if true then
          (stageFile stateWithRecord subFirst.filePath).disk.filter
            (fun p => p ≠ subFirst.filePath)
        else (stageFile stateWithRecord subFirst.filePath).disk) ∧
    (handleMedia stateWithRecord subFirst true false).2.1.disk
      = (if false then
          (stageFile stateWithRecord subFirst.filePath).disk.filter
            (fun p => p ≠ subFirst.filePath)
        else (stageFile stateWithRecord subFirst.filePath).disk) :=
  ⟨staged_file_deletion_paths.1 oneActiveState 0 "x" true true true "e" 5 6,
   staged_file_deletion_paths.2.1 oneActiveState 0 "L" true true "e" 5 6,
   staged_file_deletion_paths.2.2.1 oneActiveState 0 "L" "e" 5 6 procItemFirst
     (by decide),
   staged_file_deletion_paths.2.2.2.1 stateWithRecord subFirst recExample
     (by decide),
   staged_file_deletion_paths.2.2.2.2 stateWithRecord subFirst recExample true
     (by decide),
   staged_file_deletion_paths.2.2.2.2 stateWithRecord subFirst recExample false
     (by decide)⟩

/-- C2: refuted on the code — when the upload succeeds but the completion
notification fails, the already-committed bookkeeping is re-mutated by the
shared `catch` block: compared with the run whose notification succeeds,
`failed` is incremented, `inProgress` is decremented a second time (to -1),
and the item's terminal status flips from `completed` to `failed`. -/
theorem completion_notify_failure_corrupts_state :
    (finishUpload oneActiveState 0 (Except.ok "L") true true true "boom" 5 7).1.stats
      = { total := 1, completed := 1, failed := 0, inProgress := 0 } ∧
    (finishUpload oneActiveState 0 (Except.ok "L") false true true "boom" 5 7).1.stats
      = { total := 1, completed := 1, failed := 1, inProgress := -1 } ∧
    ((finishUpload oneActiveState 0 (Except.ok "L") false true true "boom" 5 7).2.2.map
        (fun i => i.status)) = some Status.failed ∧
    ((finishUpload oneActiveState 0 (Except.ok "L") true true true "boom" 5 7).2.2.map
        (fun i => i.status)) = some Status.completed := by
  decide

/-- C3: refuted on the code — the item commits to the terminal `completed`
state (status `completed`, `completedAt = 5`), and the subsequent failing
notification delivery mutates it to `failed` with a new `completedAt = 7`
and an error message, so terminal state, timestamps and error detail all
change after the terminal transition. -/
theorem terminal_item_mutated_after_notify_failure :
    findActive oneActiveState 0 = some procItemFirst ∧
    (successCommit oneActiveState procItemFirst "L" 5).2.status
      = Status.completed ∧
    (successCommit oneActiveState procItemFirst "L" 5).2.completedAt = some 5 ∧
    ((finishUpload oneActiveState 0 (Except.ok "L") false true true "boom" 5 7).2.2.map
        (fun i => i.status)) = some Status.failed ∧
    ((finishUpload oneActiveState 0 (Except.ok "L") false true true "boom" 5 7).2.2.map
        (fun i => i.completedAt)) = some (some 7) ∧
    ((finishUpload oneActiveState 0 (Except.ok "L") false true true "boom" 5 7).2.2.map
        (fun i => i.error)) = some (some "boom") := by
  decide

/-- C4: refuted on the code — after a terminal transition whose failure
notification itself throws, `setImmediate(() => this.processQueue())` is
never reached: no scheduler re-invocation is registered
(`pendingSchedules = 0`, versus 1 when the notification delivers), the
freed slot stays empty and the backlogged item remains `queued`. -/
theorem scheduler_not_retriggered_on_notify_failure :
    twoSubState.queue.length = 1 ∧
    (finishUpload twoSubState 0 (Except.error "net") true false true "e" 5 6).1.pendingSchedules
      = 0 ∧
    (finishUpload twoSubState 0 (Except.error "net") true false true "e" 5 6).1.queue.map
        (fun i => i.status) = [Status.queued] ∧
    (finishUpload twoSubState 0 (Except.error "net") true false true "e" 5 6).1.activeUploads
      = [] ∧
    (finishUpload twoSubState 0 (Except.error "net") true true true "e" 5 6).1.pendingSchedules
      = 1 := by
  decide
